import Mathlib

/-!
Shallow embedding of the session and credential-custody core of the
datamindnl2sql repository: `app/engines/auth/service.py` together with
`app/core/security.py` and the `require_auth` dependency of
`app/api/query.py`.

Modelling conventions:
- Python dict values are the inductive `Value`; a Fernet ciphertext string is
  the constructor `Value.cipher key plain`, treating Fernet as an ideal
  authenticated cipher keyed by the Fernet key that `_get_fernet` derives.
- The environment is a `Config`: the JWT secret, the JWT TTL, the derivation
  outcome of `APP_ENCRYPTION_KEY` (`KeyConfig`), and whether `REDIS_URL`
  configured a Redis client (`useRedis`).
- Mutable module state (the users table, the in-memory `_sessions` dict and
  the Redis keyspace) is an explicit `AuthState` threaded through the
  operations; mutating operations return the new state together with an
  `Except` mirroring the raised `ValueError`s.
- JWTs are the inductive `Token`: `Token.signed payload secret` is the string
  `jwt.encode(payload, secret, HS256)` and `Token.raw s` is any other string.
  `jose.jwt.decode` fails with a `JWTError` on a bad signature and with
  `ExpiredSignatureError` (a `JWTError`) when the `exp` claim is in the past,
  and `verify_token` turns every `JWTError` into `ValueError("invalid token")`.
- `pbkdf2_sha256` hashing is modelled as an injective tag; the claims under
  study only need that verification succeeds exactly on the hashed password.
-/

namespace DataMind

/-- A Python/JSON value as stored in session dicts. `cipher k p` stands for
the Fernet token string produced by encrypting the string value `p` under the
derived Fernet key `k`. -/
inductive Value where
  | str (s : String)
  | num (n : Int)
  | null
  | cipher (key : String) (plain : Value)
deriving DecidableEq, Repr

/-- A Python dict with string keys, as an association list. -/
abbrev Dict := List (String × Value)

/-- `d.get(k)` / `d[k]` lookup: first binding of the key. -/
def dget : Dict → String → Option Value
  | [], _ => none
  | (k, v) :: rest, key => if k = key then some v else dget rest key

/-- `k in d` membership test. -/
def dhas (d : Dict) (k : String) : Bool :=
  (dget d k).isSome

/-- `d[k] = v` update (replace the binding or append it). -/
def dset : Dict → String → Value → Dict
  | [], key, v => [(key, v)]
  | (k, w) :: rest, key, v =>
    if k = key then (k, v) :: rest else (k, w) :: dset rest key v

/-- `str(v)` as used by the f-string building the redacted dsn. -/
def pyStr : Value → String
  | Value.str s => s
  | Value.num n => toString n
  | Value.null => "None"
  | Value.cipher k p => "fernet:" ++ k ++ ":" ++ pyStr p

/-- The decoded JWT payload built in `authenticate_user`. -/
structure Payload where
  sub : String
  email : String
  iat : Int
  exp : Int
deriving DecidableEq, Repr

/-- A token string: either `jwt.encode(payload, secret, HS256)` or any other
string (malformed or forged). -/
inductive Token where
  | signed (p : Payload) (secret : String)
  | raw (s : String)
deriving DecidableEq, Repr

/-- The session context dict created by `authenticate_user`. `created_at` is
the timestamp (the code stores its isoformat string). -/
structure SessionObj where
  user_id : String
  email : String
  created_at : Int
  active_db : Option Dict
  last_query : Option Value
deriving DecidableEq, Repr

/-- A row of the `auth_users` table. -/
structure UserRow where
  id : String
  email : String
  password_hash : String
deriving DecidableEq, Repr

/-- Outcome of classifying the `APP_ENCRYPTION_KEY` environment variable, as
`_get_fernet` does: unset, set but deriving no usable Fernet key, or set and
deriving the Fernet key `k` (directly or through urlsafe base64 encoding). -/
inductive KeyConfig where
  | absent
  | malformed (s : String)
  | usable (k : String)
deriving DecidableEq, Repr

/-- Process configuration read from the environment. -/
structure Config where
  jwtSecret : String
  jwtExpSeconds : Int
  encKey : KeyConfig
  useRedis : Bool
deriving DecidableEq, Repr

/-- The mutable module state: users table, in-memory `_sessions` dict, and the
`session:*` keyspace of the optional Redis client (unexpired keys). -/
structure AuthState where
  users : List UserRow
  memSessions : List (Token × SessionObj)
  redisSessions : List (Token × SessionObj)
deriving DecidableEq, Repr

/-- Errors raised by `app/core/security.py`: the `RuntimeError` for a missing
key, the `ValueError("invalid encrypted value")` wrapping `InvalidToken`, and
the `AttributeError` from calling `.encode` on a non-string. -/
inductive SecErr where
  | keyNotConfigured
  | invalidCiphertext
  | typeError
deriving DecidableEq, Repr

/-- The `ValueError`s raised by `service.py`, one constructor per distinct
message. -/
inductive AuthErr where
  | userExists
  | invalidCredentials
  | sessionNotFound
  | invalidDbInfo
  | decryptFailed
  | invalidToken
deriving DecidableEq, Repr

/-- Session-store lookup keyed by token string. -/
def sget : List (Token × SessionObj) → Token → Option SessionObj
  | [], _ => none
  | (t, s) :: rest, tok => if t = tok then some s else sget rest tok

/-- Session-store upsert keyed by token string. -/
def sset : List (Token × SessionObj) → Token → SessionObj → List (Token × SessionObj)
  | [], tok, s => [(tok, s)]
  | (t, s0) :: rest, tok, s =>
    if t = tok then (t, s) :: rest else (t, s0) :: sset rest tok s

/-- `_get_fernet`: the Fernet instance is available exactly when the
configured string derives a key. -/
def getFernet : KeyConfig → Option String
  | KeyConfig.absent => none
  | KeyConfig.malformed _ => none
  | KeyConfig.usable k => some k

/-- Whether a value is a Python `str` (plain string or a ciphertext string),
so that `.encode("utf-8")` succeeds on it. -/
def Value.isStringy : Value → Bool
  | Value.str _ => true
  | Value.cipher _ _ => true
  | _ => false

/-- `encrypt_value`: raises `RuntimeError` when no Fernet is available, then
returns the Fernet encryption of the string value; a non-string argument
raises (`AttributeError` on `.encode`). -/
def encrypt_value (cfg : KeyConfig) (v : Value) : Except SecErr Value :=
  match getFernet cfg with
  | none => Except.error SecErr.keyNotConfigured
  | some k =>
    if v.isStringy then Except.ok (Value.cipher k v)
    else Except.error SecErr.typeError

/-- `decrypt_value`: raises `RuntimeError` when no Fernet is available;
decrypting a Fernet token produced under the same derived key recovers the
plaintext, any other string fails authentication and raises
`ValueError("invalid encrypted value")`; a non-string raises on `.encode`. -/
def decrypt_value (cfg : KeyConfig) (v : Value) : Except SecErr Value :=
  match getFernet cfg with
  | none => Except.error SecErr.keyNotConfigured
  | some k =>
    match v with
    | Value.cipher k2 p =>
      if k2 = k then Except.ok p else Except.error SecErr.invalidCiphertext
    | Value.str _ => Except.error SecErr.invalidCiphertext
    | _ => Except.error SecErr.typeError

/-- `_hash_password` via passlib pbkdf2_sha256, modelled as an injective tag. -/
def hashPassword (pw : String) : String :=
  "pbkdf2_sha256$" ++ pw

/-- `_verify_password`. -/
def verifyPassword (pw h : String) : Bool :=
  h = hashPassword pw

/-- `create_user`: inserts a row with a fresh uuid `uid`; the unique
constraint on email raises `IntegrityError`, re-raised as
`ValueError("user already exists")`. Returns the new user id. -/
def create_user (st : AuthState) (email pw uid : String) :
    AuthState × Except AuthErr String :=
  if st.users.any (fun r => r.email == email) then
    (st, Except.error AuthErr.userExists)
  else
    ({ st with users := st.users ++ [⟨uid, email, hashPassword pw⟩] },
     Except.ok uid)

/-- `authenticate_user`: looks the email up, verifies the password, signs a
JWT with `iat = now` and `exp = now + JWT_EXP_DELTA_SECONDS`, and stores the
fresh session context in the in-memory `_sessions` dict — the source writes
`_sessions[token] = session_obj` unconditionally (lines 133-134), never the
Redis keyspace, even when Redis is configured. -/
def authenticate_user (cfg : Config) (st : AuthState) (now : Int)
    (email pw : String) : AuthState × Except AuthErr Token :=
  match st.users.find? (fun r => r.email == email) with
  | none => (st, Except.error AuthErr.invalidCredentials)
  | some r =>
    if verifyPassword pw r.password_hash then
      let payload : Payload := ⟨r.id, email, now, now + cfg.jwtExpSeconds⟩
      let token := Token.signed payload cfg.jwtSecret
      let sobj : SessionObj := ⟨r.id, email, now, none, none⟩
      ({ st with memSessions := sset st.memSessions token sobj },
       Except.ok token)
    else (st, Except.error AuthErr.invalidCredentials)

/-- `_get_session`: prefers Redis when configured, else the in-memory dict;
absence raises `ValueError("invalid or expired session token")`. -/
def get_session (cfg : Config) (st : AuthState) (token : Token) :
    Except AuthErr SessionObj :=
  if cfg.useRedis then
    match sget st.redisSessions token with
    | none => Except.error AuthErr.sessionNotFound
    | some s => Except.ok s
  else
    match sget st.memSessions token with
    | none => Except.error AuthErr.sessionNotFound
    | some s => Except.ok s

/-- The dict comprehension of `get_session_context` dropping the `password`
and `password_enc` keys from `active_db`. -/
def sanitizeDb (d : Dict) : Dict :=
  d.filter (fun kv => kv.1 != "password" && kv.1 != "password_enc")

/-- The dict returned by `get_session_context`. -/
structure Ctx where
  user_id : String
  email : String
  active_db : Option Dict
  last_query : Option Value
deriving DecidableEq, Repr

/-- `get_session_context`: fetches the session (no token verification) and
returns it with `active_db` sanitized when it is a dict. -/
def get_session_context (cfg : Config) (st : AuthState) (token : Token) :
    Except AuthErr Ctx :=
  match get_session cfg st token with
  | Except.error e => Except.error e
  | Except.ok s =>
    Except.ok { user_id := s.user_id, email := s.email,
                active_db := s.active_db.map sanitizeDb,
                last_query := s.last_query }

/-- The dict returned by `get_db_credentials`. -/
structure Creds where
  db_type : Option Value
  host : Option Value
  port : Option Value
  username : Option Value
  password : Option Value
  database : Option Value
deriving DecidableEq, Repr

/-- `get_db_credentials`: fetches the session, reads the fields of
`active_db or {}` with `.get`, decrypts `password_enc` when present (every
decryption failure re-raised as
`ValueError("failed to decrypt stored password")`), else returns the stored
plaintext `password` value. -/
def get_db_credentials (cfg : Config) (st : AuthState) (token : Token) :
    Except AuthErr Creds :=
  match get_session cfg st token with
  | Except.error e => Except.error e
  | Except.ok s =>
    let adb := s.active_db.getD []
    match dget adb "password_enc" with
    | some encv =>
      match decrypt_value cfg.encKey encv with
      | Except.ok pl =>
        Except.ok ⟨dget adb "db_type", dget adb "host", dget adb "port",
                   dget adb "username", some pl, dget adb "database"⟩
      | Except.error _ => Except.error AuthErr.decryptFailed
    | none =>
      Except.ok ⟨dget adb "db_type", dget adb "host", dget adb "port",
                 dget adb "username", dget adb "password", dget adb "database"⟩

/-- The six keys `set_active_database` requires in `db_info`. -/
def requiredKeys : List String :=
  ["db_type", "host", "port", "username", "password", "database"]

/-- The redacted dsn f-string of `set_active_database`:
`db_type://username@host:port/database` — the password never appears. -/
def dsnOf (info : Dict) : String :=
  pyStr ((dget info "db_type").getD Value.null) ++ "://" ++
  pyStr ((dget info "username").getD Value.null) ++ "@" ++
  pyStr ((dget info "host").getD Value.null) ++ ":" ++
  pyStr ((dget info "port").getD Value.null) ++ "/" ++
  pyStr ((dget info "database").getD Value.null)

/-- The `enc` computation of `set_active_database`: skip when the password is
`None`; try `encrypt_value`, and on `RuntimeError` — or any other exception,
through the enclosing `except Exception` — fall back to `enc = None`. -/
def encAttempt (cfg : Config) (info : Dict) : Option Value :=
  match dget info "password" with
  | none => none
  | some Value.null => none
  | some v =>
    match encrypt_value cfg.encKey v with
    | Except.ok c => some c
    | Except.error _ => none

/-- The `stored` dict of `set_active_database`: db_type, the redacted dsn,
and then `password_enc` when `enc` is truthy (a Fernet token string is never
empty) else the plaintext `password`. -/
def buildStored (cfg : Config) (info : Dict) : Dict :=
  match encAttempt cfg info with
  | some c =>
    [("db_type", (dget info "db_type").getD Value.null),
     ("dsn", Value.str (dsnOf info)),
     ("password_enc", c)]
  | none =>
    [("db_type", (dget info "db_type").getD Value.null),
     ("dsn", Value.str (dsnOf info)),
     ("password", (dget info "password").getD Value.null)]

/-- `set_active_database`: validates the six required keys, fetches the
session (no token verification), builds `stored`, and writes it back into the
configured backend — read-modify-write on Redis, in-place mutation of the
fetched dict under the lock for the in-memory store. -/
def set_active_database (cfg : Config) (st : AuthState) (token : Token)
    (info : Dict) : AuthState × Except AuthErr Unit :=
  if requiredKeys.all (fun k => dhas info k) then
    match get_session cfg st token with
    | Except.error e => (st, Except.error e)
    | Except.ok s =>
      let stored := buildStored cfg info
      if cfg.useRedis then
        match sget st.redisSessions token with
        | none => (st, Except.error AuthErr.sessionNotFound)
        | some cur =>
          ({ st with
              redisSessions := sset st.redisSessions token { cur with active_db := some stored } },
           Except.ok ())
      else
        ({ st with
            memSessions := sset st.memSessions token { s with active_db := some stored } },
         Except.ok ())
  else (st, Except.error AuthErr.invalidDbInfo)

/-- `verify_token`: `jwt.decode` succeeds only on a token signed with the
configured secret whose `exp` claim is not in the past; every `JWTError`
(bad signature, malformed string, expired signature) is re-raised as
`ValueError("invalid token")`. -/
def verify_token (cfg : Config) (now : Int) (token : Token) :
    Except AuthErr Payload :=
  match token with
  | Token.raw _ => Except.error AuthErr.invalidToken
  | Token.signed p secret =>
    if secret = cfg.jwtSecret then
      if p.exp < now then Except.error AuthErr.invalidToken
      else Except.ok p
    else Except.error AuthErr.invalidToken

/-- `require_auth` of `app/api/query.py`: verify the token, then fetch the
session context; either `ValueError` becomes the same 401 response. -/
def require_auth (cfg : Config) (st : AuthState) (now : Int) (token : Token) :
    Except AuthErr Ctx :=
  match verify_token cfg now token with
  | Except.error e => Except.error e
  | Except.ok _ => get_session_context cfg st token

/-- `logout`: deletes the session from the configured backend; idempotent. -/
def logout (cfg : Config) (st : AuthState) (token : Token) :
    AuthState × Except AuthErr Unit :=
  if cfg.useRedis then
    ({ st with redisSessions := st.redisSessions.filter (fun ts => ts.1 != token) },
     Except.ok ())
  else
    ({ st with memSessions := st.memSessions.filter (fun ts => ts.1 != token) },
     Except.ok ())

/-! ### Concrete demonstration scenarios -/

/-- The configuration with `REDIS_URL` set (external-cache backend) and the
default JWT secret of the source. -/
def demoRedisCfg : Config := ⟨"dev-secret-change-me", 3600, KeyConfig.absent, true⟩

/-- The same configuration with the in-memory backend. -/
def demoMemCfg : Config := ⟨"dev-secret-change-me", 3600, KeyConfig.absent, false⟩

/-- State after `signup("a@x.com", "pw1")` on an empty deployment. -/
def demoSignupState : AuthState := (create_user ⟨[], [], []⟩ "a@x.com" "pw1" "uid-1").1

/-- The token `authenticate_user` issues at time 0 for that user. -/
def demoLoginToken : Token :=
  Token.signed ⟨"uid-1", "a@x.com", 0, 3600⟩ "dev-secret-change-me"

/-- A complete data-source descriptor, as in the repository tests. -/
def demoInfo : Dict :=
  [("db_type", Value.str "postgres"), ("host", Value.str "localhost"),
   ("port", Value.num 5432), ("username", Value.str "u"),
   ("password", Value.str "s3cret"), ("database", Value.str "db")]

/-- A bare active session. -/
def demoSession : SessionObj := ⟨"u1", "a@x.com", 0, none, none⟩

/-- An in-memory state holding that session under an opaque token string. -/
def demoMemState : AuthState := ⟨[], [(Token.raw "tok-demo", demoSession)], []⟩

/-- In-memory backend with a configured encryption key deriving `fkey`. -/
def demoEncCfg : Config := ⟨"dev-secret", 3600, KeyConfig.usable "fkey", false⟩

/-- In-memory backend with no encryption key configured. -/
def demoNoEncCfg : Config := ⟨"dev-secret", 3600, KeyConfig.absent, false⟩

/-! ### Helper lemmas -/

theorem sget_sset_self (l : List (Token × SessionObj)) (t : Token) (s : SessionObj) :
    sget (sset l t s) t = some s := by
  induction l with
  | nil => simp [sset, sget]
  | cons hd tl ih =>
    obtain ⟨t0, s0⟩ := hd
    by_cases h : t0 = t
    · simp [sset, sget, h]
    · simp [sset, sget, h, ih]

theorem dget_dset_ne (d : Dict) (k k2 : String) (v : Value) (h : k ≠ k2) :
    dget (dset d k v) k2 = dget d k2 := by
  induction d with
  | nil => simp [dset, dget, h]
  | cons hd tl ih =>
    obtain ⟨k0, v0⟩ := hd
    by_cases h0 : k0 = k
    · subst h0
      simp [dset, dget, h]
    · simp [dset, dget, h0, ih]

theorem dget_sanitizeDb (d : Dict) (k : String)
    (h : k = "password" ∨ k = "password_enc") :
    dget (sanitizeDb d) k = none := by
  induction d with
  | nil => rfl
  | cons hd tl ih =>
    obtain ⟨k0, v0⟩ := hd
    by_cases h0 : (k0 != "password" && k0 != "password_enc") = true
    · have hk0 : k0 ≠ k := by
        rcases h with h | h <;> subst h <;> simp_all
      simp [sanitizeDb, List.filter_cons, h0, dget, hk0] at ih ⊢
      exact ih
    · simp [sanitizeDb, List.filter_cons, h0] at ih ⊢
      exact ih

theorem get_session_error_eq (cfg : Config) (st : AuthState) (token : Token)
    (e : AuthErr) (h : get_session cfg st token = Except.error e) :
    e = AuthErr.sessionNotFound := by
  unfold get_session at h
  by_cases hr : cfg.useRedis
  · rw [if_pos hr] at h
    cases hq : sget st.redisSessions token <;> rw [hq] at h
    · injection h with h
      exact h.symm
    · exact absurd h (by simp)
  · rw [if_neg hr] at h
    cases hq : sget st.memSessions token <;> rw [hq] at h
    · injection h with h
      exact h.symm
    · exact absurd h (by simp)

theorem set_active_database_ok (cfg : Config) (st st2 : AuthState) (token : Token)
    (info : Dict)
    (h : set_active_database cfg st token info = (st2, Except.ok ())) :
    ∃ s2 : SessionObj, get_session cfg st2 token = Except.ok s2 ∧
      s2.active_db = some (buildStored cfg info) := by
  unfold set_active_database at h
  by_cases hv : requiredKeys.all (fun k => dhas info k) = true
  · rw [if_pos hv] at h
    cases hg : get_session cfg st token <;> rw [hg] at h
    · exact absurd h (by simp)
    · rename_i s
      dsimp only at h
      by_cases hr : cfg.useRedis
      · rw [if_pos hr] at h
        cases hq : sget st.redisSessions token <;> rw [hq] at h
        · exact absurd h (by simp)
        · rename_i cur
          have hst : _ = st2 := congrArg Prod.fst h
          refine ⟨{ cur with active_db := some (buildStored cfg info) }, ?_, rfl⟩
          rw [← hst]
          simp [get_session, hr, sget_sset_self]
      · rw [if_neg hr] at h
        have hst : _ = st2 := congrArg Prod.fst h
        refine ⟨{ s with active_db := some (buildStored cfg info) }, ?_, rfl⟩
        rw [← hst]
        simp [get_session, hr, sget_sset_self]
  · rw [if_neg hv] at h
    exact absurd h (by simp)

/-! ### Claims -/

/-- C9: for every string s and a fixed configured encryption key,
decrypt_value (encrypt_value s) recovers s, and decrypt_value under a
different derived key fails with InvalidCiphertext rather than returning any
plaintext. -/
theorem claim9_cipher_roundtrip (k1 k2 s : String) (c : Value)
    (henc : encrypt_value (KeyConfig.usable k1) (Value.str s) = Except.ok c) :
    decrypt_value (KeyConfig.usable k1) c = Except.ok (Value.str s) ∧
    (k2 ≠ k1 →
      decrypt_value (KeyConfig.usable k2) c = Except.error SecErr.invalidCiphertext) := by
  have hc : c = Value.cipher k1 (Value.str s) := by
    simp [encrypt_value, getFernet, Value.isStringy] at henc
    exact henc.symm
  subst hc
  constructor
  · simp [decrypt_value, getFernet]
  · intro hne
    simp [decrypt_value, getFernet, hne.symm]

theorem claim9_witness :
    encrypt_value (KeyConfig.usable "keyA") (Value.str "s3cret")
      = Except.ok (Value.cipher "keyA" (Value.str "s3cret")) ∧
    decrypt_value (KeyConfig.usable "keyA") (Value.cipher "keyA" (Value.str "s3cret"))
      = Except.ok (Value.str "s3cret") ∧
    decrypt_value (KeyConfig.usable "keyB") (Value.cipher "keyA" (Value.str "s3cret"))
      = Except.error SecErr.invalidCiphertext :=
  ⟨rfl,
   (claim9_cipher_roundtrip "keyA" "keyB" "s3cret" _ rfl).1,
   (claim9_cipher_roundtrip "keyA" "keyB" "s3cret" _ rfl).2 (by decide)⟩

/-- C2: the context returned by get_session_context contains no password
field in any form — the returned descriptor has neither a password nor a
password_enc key, whether the password was stored encrypted or plaintext. -/
theorem claim2_context_strips_password (cfg : Config) (st : AuthState)
    (token : Token) (ctx : Ctx) (d : Dict)
    (hctx : get_session_context cfg st token = Except.ok ctx)
    (hdb : ctx.active_db = some d) :
    dget d "password" = none ∧ dget d "password_enc" = none := by
  unfold get_session_context at hctx
  cases hg : get_session cfg st token <;> rw [hg] at hctx
  · exact absurd hctx (by simp)
  · rename_i s
    injection hctx with hctx
    rw [← hctx] at hdb
    simp only [Option.map_eq_some'] at hdb
    obtain ⟨d0, -, hd0⟩ := hdb
    rw [← hd0]
    exact ⟨dget_sanitizeDb d0 "password" (Or.inl rfl),
           dget_sanitizeDb d0 "password_enc" (Or.inr rfl)⟩

theorem claim2_witness :
    dget [("db_type", Value.str "postgres")] "password" = none ∧
    dget [("db_type", Value.str "postgres")] "password_enc" = none :=
  claim2_context_strips_password ⟨"s", 3600, KeyConfig.absent, false⟩
    ⟨[], [(Token.raw "t",
           ⟨"u1", "a@x.com", 0,
            some [("db_type", Value.str "postgres"), ("password", Value.str "s3cret")],
            none⟩)], []⟩
    (Token.raw "t")
    ⟨"u1", "a@x.com", some [("db_type", Value.str "postgres")], none⟩
    [("db_type", Value.str "postgres")] rfl rfl

/-- C4 counterexample: a token the Token Authority rejects outright (an
unsigned garbage string) still succeeds in get_session_context when a session
record is stored under that string — the claimed InvalidToken failure does
not happen. -/
theorem claim4_counterexample :
    verify_token ⟨"dev-secret", 3600, KeyConfig.absent, false⟩ 0 (Token.raw "garbage")
      = Except.error AuthErr.invalidToken ∧
    get_session_context ⟨"dev-secret", 3600, KeyConfig.absent, false⟩
      ⟨[], [(Token.raw "garbage", ⟨"u1", "a@x.com", 0, none, none⟩)], []⟩
      (Token.raw "garbage")
      = Except.ok ⟨"u1", "a@x.com", none, none⟩ :=
  ⟨rfl, rfl⟩

/-- C4 amended: get_session_context performs no token verification at all —
its only failure is the session-store miss, so any token string with a
stored session record succeeds regardless of signature validity or embedded
expiry; token verification happens only in callers such as require_auth. -/
theorem claim4_context_only_session_lookup (cfg : Config) (st : AuthState)
    (token : Token) (e : AuthErr)
    (h : get_session_context cfg st token = Except.error e) :
    e = AuthErr.sessionNotFound := by
  unfold get_session_context at h
  cases hg : get_session cfg st token <;> rw [hg] at h
  · injection h with h
    rw [← h]
    exact get_session_error_eq cfg st token _ hg
  · exact absurd h (by simp)

theorem claim4_witness : AuthErr.sessionNotFound = AuthErr.sessionNotFound :=
  claim4_context_only_session_lookup ⟨"dev-secret", 3600, KeyConfig.absent, false⟩
    ⟨[], [], []⟩ (Token.raw "t") AuthErr.sessionNotFound rfl

/-- C3 counterexample: a cryptographically invalid token (signed but with its
embedded expiry in the past, so verify_token rejects it) is still accepted by
set_active_database when a session record is stored under that string. -/
theorem claim3_counterexample :
    verify_token ⟨"dev-secret", 3600, KeyConfig.absent, false⟩ 100
      (Token.signed ⟨"u1", "a@x.com", 0, 10⟩ "dev-secret")
      = Except.error AuthErr.invalidToken ∧
    (set_active_database ⟨"dev-secret", 3600, KeyConfig.absent, false⟩
      ⟨[], [(Token.signed ⟨"u1", "a@x.com", 0, 10⟩ "dev-secret",
             ⟨"u1", "a@x.com", 0, none, none⟩)], []⟩
      (Token.signed ⟨"u1", "a@x.com", 0, 10⟩ "dev-secret")
      [("db_type", Value.str "postgres"), ("host", Value.str "h"),
       ("port", Value.num 5432), ("username", Value.str "u"),
       ("password", Value.str "pw"), ("database", Value.str "d")]).2
      = Except.ok () :=
  ⟨rfl, rfl⟩

/-- C3 amended: set_active_database never consults the Token Authority — it
neither checks the signature nor the embedded expiry; its only failures are
the missing-field validation and the session-store miss, so any token string
under which a session record is stored is accepted. -/
theorem claim3_attach_no_token_check (cfg : Config) (st st2 : AuthState)
    (token : Token) (info : Dict) (e : AuthErr)
    (h : set_active_database cfg st token info = (st2, Except.error e)) :
    e = AuthErr.invalidDbInfo ∨ e = AuthErr.sessionNotFound := by
  unfold set_active_database at h
  by_cases hv : requiredKeys.all (fun k => dhas info k) = true
  · rw [if_pos hv] at h
    cases hg : get_session cfg st token <;> rw [hg] at h
    · rename_i e0
      have he : Except.error e0 = (Except.error e : Except AuthErr Unit) :=
        congrArg Prod.snd h
      injection he with he
      rw [← he]
      exact Or.inr (get_session_error_eq cfg st token _ hg)
    · rename_i s
      dsimp only at h
      by_cases hr : cfg.useRedis
      · rw [if_pos hr] at h
        cases hq : sget st.redisSessions token <;> rw [hq] at h
        · have he : Except.error AuthErr.sessionNotFound = (Except.error e : Except AuthErr Unit) :=
            congrArg Prod.snd h
          injection he with he
          exact Or.inr he.symm
        · exact absurd (congrArg Prod.snd h) (by simp)
      · rw [if_neg hr] at h
        exact absurd (congrArg Prod.snd h) (by simp)
  · rw [if_neg hv] at h
    have he : Except.error AuthErr.invalidDbInfo = (Except.error e : Except AuthErr Unit) :=
      congrArg Prod.snd h
    injection he with he
    exact Or.inl he.symm

theorem claim3_witness :
    AuthErr.sessionNotFound = AuthErr.invalidDbInfo ∨
    AuthErr.sessionNotFound = AuthErr.sessionNotFound :=
  claim3_attach_no_token_check ⟨"dev-secret", 3600, KeyConfig.absent, false⟩
    ⟨[], [], []⟩ ⟨[], [], []⟩ (Token.raw "t")
    [("db_type", Value.str "postgres"), ("host", Value.str "h"),
     ("port", Value.num 5432), ("username", Value.str "u"),
     ("password", Value.str "pw"), ("database", Value.str "d")]
    AuthErr.sessionNotFound rfl

/-- C7: set_active_database is atomic — every failing call (missing required
field, or no backing session for the token) leaves the stored state,
including any previously attached descriptor, completely unchanged. -/
theorem claim7_attach_atomic (cfg : Config) (st st2 : AuthState)
    (token : Token) (info : Dict) (e : AuthErr)
    (h : set_active_database cfg st token info = (st2, Except.error e)) :
    st2 = st := by
  unfold set_active_database at h
  by_cases hv : requiredKeys.all (fun k => dhas info k) = true
  · rw [if_pos hv] at h
    cases hg : get_session cfg st token <;> rw [hg] at h
    · exact (congrArg Prod.fst h).symm
    · rename_i s
      dsimp only at h
      by_cases hr : cfg.useRedis
      · rw [if_pos hr] at h
        cases hq : sget st.redisSessions token <;> rw [hq] at h
        · exact (congrArg Prod.fst h).symm
        · exact absurd (congrArg Prod.snd h) (by simp)
      · rw [if_neg hr] at h
        exact absurd (congrArg Prod.snd h) (by simp)
  · rw [if_neg hv] at h
    exact (congrArg Prod.fst h).symm

theorem claim7_witness :
    (⟨[], [(Token.raw "t",
            ⟨"u1", "a@x.com", 0, some [("db_type", Value.str "mysql")], none⟩)], []⟩ : AuthState)
    = ⟨[], [(Token.raw "t",
             ⟨"u1", "a@x.com", 0, some [("db_type", Value.str "mysql")], none⟩)], []⟩ :=
  claim7_attach_atomic ⟨"dev-secret", 3600, KeyConfig.absent, false⟩
    ⟨[], [(Token.raw "t",
           ⟨"u1", "a@x.com", 0, some [("db_type", Value.str "mysql")], none⟩)], []⟩
    ⟨[], [(Token.raw "t",
           ⟨"u1", "a@x.com", 0, some [("db_type", Value.str "mysql")], none⟩)], []⟩
    (Token.raw "t")
    [("db_type", Value.str "postgres")]
    AuthErr.invalidDbInfo rfl

/-- C5 counterexample: on a session with no attached data source,
get_db_credentials succeeds with every field None instead of failing with
NoDataSourceAttached. -/
theorem claim5_counterexample :
    get_db_credentials ⟨"dev-secret", 3600, KeyConfig.absent, false⟩
      ⟨[], [(Token.raw "t", ⟨"u1", "a@x.com", 0, none, none⟩)], []⟩
      (Token.raw "t")
      = Except.ok ⟨none, none, none, none, none, none⟩ := rfl

/-- C5 amended: get_db_credentials on a session with no attached data source
succeeds and returns a record with every field None (there is no
NoDataSourceAttached failure); when the stored ciphertext cannot be
decrypted it fails with DecryptionFailed and never returns the ciphertext as
if it were the plaintext password. -/
theorem claim5_raw_credentials_behavior :
    (∀ (cfg : Config) (st : AuthState) (token : Token) (s : SessionObj),
        get_session cfg st token = Except.ok s → s.active_db = none →
        get_db_credentials cfg st token = Except.ok ⟨none, none, none, none, none, none⟩)
  ∧ (∀ (cfg : Config) (st : AuthState) (token : Token) (s : SessionObj)
        (d : Dict) (encv : Value) (e : SecErr),
        get_session cfg st token = Except.ok s → s.active_db = some d →
        dget d "password_enc" = some encv →
        decrypt_value cfg.encKey encv = Except.error e →
        get_db_credentials cfg st token = Except.error AuthErr.decryptFailed) := by
  constructor
  · intro cfg st token s hg hdb
    simp [get_db_credentials, hg, hdb, dget]
  · intro cfg st token s d encv e hg hdb henc hdec
    simp [get_db_credentials, hg, hdb, henc, hdec]

theorem claim5_witness :
    get_db_credentials ⟨"dev-secret", 3600, KeyConfig.absent, false⟩
      ⟨[], [(Token.raw "tA", ⟨"u1", "a@x.com", 0, none, none⟩)], []⟩
      (Token.raw "tA")
      = Except.ok ⟨none, none, none, none, none, none⟩ ∧
    get_db_credentials ⟨"dev-secret", 3600, KeyConfig.usable "k1", false⟩
      ⟨[], [(Token.raw "tB",
             ⟨"u1", "a@x.com", 0,
              some [("password_enc", Value.cipher "k2" (Value.str "x"))], none⟩)], []⟩
      (Token.raw "tB")
      = Except.error AuthErr.decryptFailed :=
  ⟨claim5_raw_credentials_behavior.1
     ⟨"dev-secret", 3600, KeyConfig.absent, false⟩
     ⟨[], [(Token.raw "tA", ⟨"u1", "a@x.com", 0, none, none⟩)], []⟩
     (Token.raw "tA") ⟨"u1", "a@x.com", 0, none, none⟩ rfl rfl,
   claim5_raw_credentials_behavior.2
     ⟨"dev-secret", 3600, KeyConfig.usable "k1", false⟩
     ⟨[], [(Token.raw "tB",
            ⟨"u1", "a@x.com", 0,
             some [("password_enc", Value.cipher "k2" (Value.str "x"))], none⟩)], []⟩
     (Token.raw "tB")
     ⟨"u1", "a@x.com", 0,
      some [("password_enc", Value.cipher "k2" (Value.str "x"))], none⟩
     [("password_enc", Value.cipher "k2" (Value.str "x"))]
     (Value.cipher "k2" (Value.str "x")) SecErr.invalidCiphertext
     rfl rfl rfl rfl⟩

theorem dget_buildStored_plain (cfg : Config) (info : Dict)
    (h : encAttempt cfg info = none) :
    dget (buildStored cfg info) "password_enc" = none ∧
    dget (buildStored cfg info) "password" = some ((dget info "password").getD Value.null) := by
  unfold buildStored
  rw [h]
  exact ⟨rfl, rfl⟩

theorem dget_buildStored_enc (cfg : Config) (info : Dict) (c : Value)
    (h : encAttempt cfg info = some c) :
    dget (buildStored cfg info) "password_enc" = some c ∧
    dget (buildStored cfg info) "password" = none := by
  unfold buildStored
  rw [h]
  exact ⟨rfl, rfl⟩

theorem buildStored_xor (cfg : Config) (info : Dict) :
    dhas (buildStored cfg info) "password_enc" = !dhas (buildStored cfg info) "password" := by
  unfold buildStored
  cases encAttempt cfg info <;> rfl

theorem buildStored_dsn (cfg : Config) (info : Dict) :
    dget (buildStored cfg info) "dsn" = some (Value.str (dsnOf info)) := by
  unfold buildStored
  cases encAttempt cfg info <;> rfl

theorem dsnOf_dset_password (info : Dict) (v : Value) :
    dsnOf (dset info "password" v) = dsnOf info := by
  unfold dsnOf
  rw [dget_dset_ne _ _ _ _ (by decide), dget_dset_ne _ _ _ _ (by decide),
      dget_dset_ne _ _ _ _ (by decide), dget_dset_ne _ _ _ _ (by decide),
      dget_dset_ne _ _ _ _ (by decide)]

theorem set_active_database_succeeds (cfg : Config) (st : AuthState)
    (token : Token) (info : Dict) (s : SessionObj)
    (hval : requiredKeys.all (fun k => dhas info k) = true)
    (hs : get_session cfg st token = Except.ok s) :
    (set_active_database cfg st token info).2 = Except.ok () ∧
    Except.map SessionObj.active_db
      (get_session cfg (set_active_database cfg st token info).1 token)
      = Except.ok (some (buildStored cfg info)) := by
  by_cases hr : cfg.useRedis
  · unfold get_session at hs
    rw [if_pos hr] at hs
    cases hq : sget st.redisSessions token <;> rw [hq] at hs
    · exact absurd hs (by simp)
    · rename_i cur
      have hset : set_active_database cfg st token info =
          ({ st with
              redisSessions := sset st.redisSessions token { cur with active_db := some (buildStored cfg info) } },
           Except.ok ()) := by
        have hge : get_session cfg st token = Except.ok cur := by
          unfold get_session
          rw [if_pos hr, hq]
        simp [set_active_database, hval, hge, hr, hq]
      rw [hset]
      refine ⟨rfl, ?_⟩
      simp [get_session, hr, sget_sset_self, Except.map]
  · unfold get_session at hs
    rw [if_neg hr] at hs
    cases hq : sget st.memSessions token <;> rw [hq] at hs
    · exact absurd hs (by simp)
    · rename_i cur
      injection hs with hs
      have hge : get_session cfg st token = Except.ok s := by
        unfold get_session
        rw [if_neg hr, hq, hs]
      have hset : set_active_database cfg st token info =
          ({ st with
              memSessions := sset st.memSessions token { s with active_db := some (buildStored cfg info) } },
           Except.ok ()) := by
        simp [set_active_database, hval, hge, hr]
      rw [hset]
      refine ⟨rfl, ?_⟩
      simp [get_session, hr, sget_sset_self, Except.map]

/-- C1: the spec requires signup then authenticate to yield a token that the
verifySessionToken gate (require_auth) accepts under either backend. On the
source, with Redis configured, authenticate_user stores the session only in
the in-memory dict while the lookup reads only Redis, so the freshly issued
and cryptographically valid token is rejected with the session-miss error;
the identical flow on the in-memory backend is accepted. -/
theorem claim1_redis_backend_rejects_fresh_login :
    (create_user ⟨[], [], []⟩ "a@x.com" "pw1" "uid-1").2 = Except.ok "uid-1" ∧
    (authenticate_user demoRedisCfg demoSignupState 0 "a@x.com" "pw1").2
      = Except.ok demoLoginToken ∧
    verify_token demoRedisCfg 0 demoLoginToken = Except.ok ⟨"uid-1", "a@x.com", 0, 3600⟩ ∧
    require_auth demoRedisCfg
      (authenticate_user demoRedisCfg demoSignupState 0 "a@x.com" "pw1").1 0 demoLoginToken
      = Except.error AuthErr.sessionNotFound ∧
    require_auth demoMemCfg
      (authenticate_user demoMemCfg demoSignupState 0 "a@x.com" "pw1").1 0 demoLoginToken
      = Except.ok ⟨"uid-1", "a@x.com", none, none⟩ :=
  ⟨rfl, rfl, rfl, rfl, rfl⟩

/-- C6: for every session where set_active_database stored a descriptor with
password p, get_db_credentials returns exactly p — decrypting the stored
ciphertext when a cipher key is configured, returning the stored plaintext
when not. -/
theorem claim6_password_roundtrip (cfg : Config) (st st2 : AuthState)
    (token : Token) (info : Dict) (p : String)
    (hpw : dget info "password" = some (Value.str p))
    (h : set_active_database cfg st token info = (st2, Except.ok ())) :
    Except.map Creds.password (get_db_credentials cfg st2 token)
      = Except.ok (some (Value.str p)) := by
  obtain ⟨s2, hg2, hdb2⟩ := set_active_database_ok cfg st st2 token info h
  cases hk : getFernet cfg.encKey
  · have hea : encAttempt cfg info = none := by
      simp [encAttempt, hpw, encrypt_value, hk]
    obtain ⟨hpe, hpl⟩ := dget_buildStored_plain cfg info hea
    rw [hpw] at hpl
    simp [get_db_credentials, hg2, hdb2, hpe, hpl, Except.map]
  · rename_i k
    have hea : encAttempt cfg info = some (Value.cipher k (Value.str p)) := by
      simp [encAttempt, hpw, encrypt_value, hk, Value.isStringy]
    obtain ⟨hpe, -⟩ := dget_buildStored_enc cfg info _ hea
    simp [get_db_credentials, hg2, hdb2, hpe, decrypt_value, hk, Except.map]

theorem claim6_witness :
    Except.map Creds.password
      (get_db_credentials demoEncCfg
        (set_active_database demoEncCfg demoMemState (Token.raw "tok-demo") demoInfo).1
        (Token.raw "tok-demo"))
      = Except.ok (some (Value.str "s3cret")) :=
  claim6_password_roundtrip demoEncCfg demoMemState
    (set_active_database demoEncCfg demoMemState (Token.raw "tok-demo") demoInfo).1
    (Token.raw "tok-demo") demoInfo "s3cret" rfl rfl

/-- C8: every descriptor stored by set_active_database carries the password
in exactly one representation — a password_enc key when encryption succeeded,
else a password key, never both and never neither — and the stored redacted
dsn is computed from the five non-password fields only, so it is unchanged
under any change of the password field. -/
theorem claim8_stored_descriptor_invariant (cfg : Config) (st st2 st3 : AuthState)
    (token : Token) (info : Dict) (v : Value) (s2 s3 : SessionObj) (d d2 : Dict)
    (h1 : set_active_database cfg st token info = (st2, Except.ok ()))
    (hs2 : get_session cfg st2 token = Except.ok s2)
    (hd : s2.active_db = some d)
    (h2 : set_active_database cfg st token (dset info "password" v) = (st3, Except.ok ()))
    (hs3 : get_session cfg st3 token = Except.ok s3)
    (hd2 : s3.active_db = some d2) :
    dhas d "password_enc" = !dhas d "password" ∧ dget d "dsn" = dget d2 "dsn" := by
  obtain ⟨s2x, hg2, hdb2⟩ := set_active_database_ok cfg st st2 token info h1
  rw [hg2] at hs2
  injection hs2 with hs2
  rw [hs2, hd] at hdb2
  injection hdb2 with hdb2
  obtain ⟨s3x, hg3, hdb3⟩ := set_active_database_ok cfg st st3 token (dset info "password" v) h2
  rw [hg3] at hs3
  injection hs3 with hs3
  rw [hs3, hd2] at hdb3
  injection hdb3 with hdb3
  rw [hdb2, hdb3]
  refine ⟨buildStored_xor cfg info, ?_⟩
  rw [buildStored_dsn, buildStored_dsn, dsnOf_dset_password]

theorem claim8_witness :
    dhas [("db_type", Value.str "postgres"),
          ("dsn", Value.str "postgres://u@localhost:5432/db"),
          ("password_enc", Value.cipher "fkey" (Value.str "s3cret"))] "password_enc"
      = !dhas [("db_type", Value.str "postgres"),
               ("dsn", Value.str "postgres://u@localhost:5432/db"),
               ("password_enc", Value.cipher "fkey" (Value.str "s3cret"))] "password" ∧
    dget [("db_type", Value.str "postgres"),
          ("dsn", Value.str "postgres://u@localhost:5432/db"),
          ("password_enc", Value.cipher "fkey" (Value.str "s3cret"))] "dsn"
      = dget [("db_type", Value.str "postgres"),
              ("dsn", Value.str "postgres://u@localhost:5432/db"),
              ("password_enc", Value.cipher "fkey" (Value.str "other"))] "dsn" :=
  claim8_stored_descriptor_invariant demoEncCfg demoMemState
    (set_active_database demoEncCfg demoMemState (Token.raw "tok-demo") demoInfo).1
    (set_active_database demoEncCfg demoMemState (Token.raw "tok-demo")
      (dset demoInfo "password" (Value.str "other"))).1
    (Token.raw "tok-demo") demoInfo (Value.str "other")
    ⟨"u1", "a@x.com", 0,
     some [("db_type", Value.str "postgres"),
           ("dsn", Value.str "postgres://u@localhost:5432/db"),
           ("password_enc", Value.cipher "fkey" (Value.str "s3cret"))], none⟩
    ⟨"u1", "a@x.com", 0,
     some [("db_type", Value.str "postgres"),
           ("dsn", Value.str "postgres://u@localhost:5432/db"),
           ("password_enc", Value.cipher "fkey" (Value.str "other"))], none⟩
    [("db_type", Value.str "postgres"),
     ("dsn", Value.str "postgres://u@localhost:5432/db"),
     ("password_enc", Value.cipher "fkey" (Value.str "s3cret"))]
    [("db_type", Value.str "postgres"),
     ("dsn", Value.str "postgres://u@localhost:5432/db"),
     ("password_enc", Value.cipher "fkey" (Value.str "other"))]
    rfl rfl rfl rfl rfl rfl

/-- C10: set_active_database never fails because of an encryption problem —
whenever encrypt_value fails (key absent, key string underivable, or any
other exception), the operation succeeds, stores the password in plaintext,
and stores no ciphertext marker. -/
theorem claim10_attach_survives_cipher_failure (cfg : Config) (st : AuthState)
    (token : Token) (info : Dict) (v : Value) (e : SecErr) (s : SessionObj)
    (hval : requiredKeys.all (fun k => dhas info k) = true)
    (hs : get_session cfg st token = Except.ok s)
    (hpw : dget info "password" = some v)
    (henc : encrypt_value cfg.encKey v = Except.error e) :
    (set_active_database cfg st token info).2 = Except.ok () ∧
    Except.map SessionObj.active_db
      (get_session cfg (set_active_database cfg st token info).1 token)
      = Except.ok (some (buildStored cfg info)) ∧
    dget (buildStored cfg info) "password" = some v ∧
    dget (buildStored cfg info) "password_enc" = none := by
  have hea : encAttempt cfg info = none := by
    cases v <;> simp [encAttempt, hpw, henc]
  obtain ⟨hpe, hpl⟩ := dget_buildStored_plain cfg info hea
  rw [hpw] at hpl
  obtain ⟨hok, hdb⟩ := set_active_database_succeeds cfg st token info s hval hs
  exact ⟨hok, hdb, hpl, hpe⟩

theorem claim10_witness :
    (set_active_database demoNoEncCfg demoMemState (Token.raw "tok-demo") demoInfo).2
      = Except.ok () ∧
    Except.map SessionObj.active_db
      (get_session demoNoEncCfg
        (set_active_database demoNoEncCfg demoMemState (Token.raw "tok-demo") demoInfo).1
        (Token.raw "tok-demo"))
      = Except.ok (some (buildStored demoNoEncCfg demoInfo)) ∧
    dget (buildStored demoNoEncCfg demoInfo) "password" = some (Value.str "s3cret") ∧
    dget (buildStored demoNoEncCfg demoInfo) "password_enc" = none :=
  claim10_attach_survives_cipher_failure demoNoEncCfg demoMemState
    (Token.raw "tok-demo") demoInfo (Value.str "s3cret") SecErr.keyNotConfigured
    demoSession rfl rfl rfl rfl

end DataMind
